import Mathlib

/-!
# Verification of the `transmission-exporter` collector

Shallow embedding of `src/collector/collector.go` (package `collector` of
`github.com/pborzenkov/transmission-exporter`) together with the narrow
boundary of its external collaborators (the `go-transmission` RPC client,
the prometheus metric primitives, the go-kit leveled logger), and proofs
about the claims of the specification.

Modelling conventions:
* a Go channel send sequence (`ch <- m; ch <- m'; ...`) performed by one
  function becomes the list of sent elements, in send order;
* the external torrent daemon is a `Daemon`: for each of the three RPC
  queries, a response function from the context the caller passes to an
  `Except String` result (`.error` models a non-nil Go error);
* `context.Background()` becomes `contextBackground`, a context carrying
  no deadline; a context produced by `context.WithTimeout` would carry
  `hasDeadline := true`;
* `float64` gauge values become `Rat`; the only conversions the code
  performs are from booleans (`0.`/`1.`) and from integer statistics
  (`float64(int)`), both of which are exact and finite;
* log calls (`level.Error(t.logger).Log(...)`) become `LogEntry` values
  returned as data alongside the emitted metrics.
-/

namespace TransmissionExporter

/-- Leveled logging severities of the go-kit `level` package used by the code. -/
inductive LogLevel where
  | debugLevel
  | infoLevel
  | warnLevel
  | errorLevel
deriving DecidableEq, Repr

/-- One structured log line: severity, the `msg` key and the `err` key,
exactly the shape of every `level.X(t.logger).Log("msg", ..., "err", err)`
call in `collector.go`. -/
structure LogEntry where
  level : LogLevel
  msg : String
  err : String
deriving DecidableEq, Repr

/-- Handle for the go-kit logger held by the collector.  The sink itself is
external; emitted lines are returned as data by the embedded functions. -/
structure Logger where
  name : String
deriving DecidableEq, Repr

/-- A Go `context.Context` as far as this program observes it: whether an
explicit deadline/timeout has been attached. -/
structure Ctx where
  hasDeadline : Bool
deriving DecidableEq, Repr

/-- Model of `context.Background()`: no deadline attached. -/
def contextBackground : Ctx := { hasDeadline := false }

/-- Session fields that can be requested from `GetSession`; the code requests
only `transmission.SessionFieldTurtleEnabled`. -/
inductive SessionField where
  | turtleEnabled
deriving DecidableEq, Repr

/-- The part of `transmission.Session` the code reads. -/
structure Session where
  turtleEnabled : Bool
deriving DecidableEq, Repr

/-- The part of `transmission.SessionStats` the code reads:
`ActiveTorrents`, `PausedTorrents`, `AllSessions.Downloaded`,
`AllSessions.Uploaded`. -/
structure SessionStats where
  activeTorrents : Int
  pausedTorrents : Int
  allSessionsDownloaded : Int
  allSessionsUploaded : Int
deriving DecidableEq, Repr

/-- The external torrent daemon, observed through the three RPC queries the
collector issues.  Each response may depend on the context the caller
passes (in particular on whether a deadline was attached). -/
structure Daemon where
  portOpenResp : Ctx → Except String Bool
  sessionResp : Ctx → List SessionField → Except String Session
  sessionStatsResp : Ctx → Except String SessionStats

/-- Handle for the `transmission.Client`; the handle itself carries only
connection data, queries are answered by the external `Daemon`. -/
structure Client where
  url : String
deriving DecidableEq, Repr

/-- Method `client.IsPortOpen(ctx)`, delegated to the daemon. -/
def Client.isPortOpen (_ : Client) (d : Daemon) (ctx : Ctx) : Except String Bool :=
  d.portOpenResp ctx

/-- Method `client.GetSession(ctx, fields...)`, delegated to the daemon. -/
def Client.getSession (_ : Client) (d : Daemon) (ctx : Ctx)
    (fields : List SessionField) : Except String Session :=
  d.sessionResp ctx fields

/-- Method `client.GetSessionStats(ctx)`, delegated to the daemon. -/
def Client.getSessionStats (_ : Client) (d : Daemon) (ctx : Ctx) :
    Except String SessionStats :=
  d.sessionStatsResp ctx

/-- Model of `prometheus.Desc`: immutable metric metadata (fully-qualified name, help
text, variable labels, constant labels).  The code builds every descriptor
with `nil, nil` label arguments. -/
structure Desc where
  fqName : String
  help : String
  variableLabels : List String
  constLabels : List (String × String)
deriving DecidableEq, Repr

/-- Model of `prometheus.BuildFQName`: joins the non-empty components with `_`. -/
def buildFQName (ns subsystem name : String) : String :=
  if name = "" then ""
  else if ns ≠ "" ∧ subsystem ≠ "" then ns ++ "_" ++ subsystem ++ "_" ++ name
  else if ns ≠ "" then ns ++ "_" ++ name
  else if subsystem ≠ "" then subsystem ++ "_" ++ name
  else name

/-- Model of `prometheus.NewDesc`. -/
def newDesc (fqName help : String) (variableLabels : List String)
    (constLabels : List (String × String)) : Desc :=
  { fqName := fqName, help := help,
    variableLabels := variableLabels, constLabels := constLabels }

/-- Model of the `prometheus.ValueType` of a const metric. -/
inductive MetricKind where
  | counterValue
  | gaugeValue
  | untypedValue
deriving DecidableEq, Repr

/-- A value sent on the `prometheus.Metric` channel: either a const sample
(`prometheus.MustNewConstMetric`) or an invalid-metric marker
(`prometheus.NewInvalidMetric`).  The prometheus library offers both; which
one the collector sends is part of what is verified. -/
inductive Metric where
  | const (desc : Desc) (kind : MetricKind) (value : Rat)
  | invalid (desc : Desc) (err : String)
deriving DecidableEq, Repr

/-- Descriptor of a metric sent on the channel. -/
def Metric.desc : Metric → Desc
  | .const d _ _ => d
  | .invalid d _ => d

/-- Whether a channel element is an invalid-metric marker. -/
def Metric.isInvalid : Metric → Bool
  | .const _ _ _ => false
  | .invalid _ _ => true

/-- Model of `prometheus.MustNewConstMetric` for the label-free descriptors the code
uses: never panics, produces a const sample. -/
def mustNewConstMetric (desc : Desc) (kind : MetricKind) (value : Rat) : Metric :=
  .const desc kind value

/-- Constant `namespace = "transmission"` of `collector.go`. -/
def namespaceConst : String := "transmission"

/-- Struct `TransmissionCollector`: the long-lived collector object.  Fields in
source order: client handle, logger, and the six descriptors. -/
structure TransmissionCollector where
  client : Client
  logger : Logger
  portOpenDesc : Desc
  turtleModeDesc : Desc
  activeTorrents : Desc
  pausedTorrents : Desc
  downloadedBytesTotal : Desc
  uploadedBytesTotal : Desc
deriving DecidableEq, Repr

/-- Collector value built by `NewTransmissionCollector`: the struct literal
of the source, with the fixed descriptor catalog. -/
def mkTransmissionCollector (client : Client) (logger : Logger) :
    TransmissionCollector :=
    { client := client
      logger := logger
      portOpenDesc := newDesc
        (buildFQName namespaceConst "" "is_port_open")
        "Indicates whether or not the peer port is accessible from the Internet."
        [] []
      turtleModeDesc := newDesc
        (buildFQName namespaceConst "" "is_turtle_mode_active")
        "Indicates whether or not turtle mode is active."
        [] []
      activeTorrents := newDesc
        (buildFQName namespaceConst "" "active_torrents")
        "Number of active torrents."
        [] []
      pausedTorrents := newDesc
        (buildFQName namespaceConst "" "paused_torrents")
        "Number of paused torrents."
        [] []
      downloadedBytesTotal := newDesc
        (buildFQName namespaceConst "" "downloaded_bytes_total")
        "Total amount of downloaded data."
        [] []
      uploadedBytesTotal := newDesc
        (buildFQName namespaceConst "" "uploaded_bytes_total")
        "Total amount of uploaded data."
        [] [] }

/-- Function `NewTransmissionCollector`: returns the collector and a nil
error (the Go function has no failing path). -/
def newTransmissionCollector (client : Client) (logger : Logger) :
    Except String TransmissionCollector :=
  .ok (mkTransmissionCollector client logger)

/-- The six descriptor fields of the collector, in declaration order: the
full metric catalog the program can ever emit. -/
def TransmissionCollector.catalog (t : TransmissionCollector) : List Desc :=
  [t.portOpenDesc, t.turtleModeDesc, t.activeTorrents, t.pausedTorrents,
   t.downloadedBytesTotal, t.uploadedBytesTotal]

/-- Method `Describe`: the sequence of descriptors sent on the `chan<- *Desc`.
The source sends `t.portOpenDesc` and `t.turtleModeDesc`, nothing else. -/
def TransmissionCollector.describe (t : TransmissionCollector) : List Desc :=
  [t.portOpenDesc, t.turtleModeDesc]

/-- Result of one sub-collection: the metrics it sent on the shared channel,
in send order, and the log lines it emitted. -/
structure SubResult where
  metrics : List Metric
  logs : List LogEntry
deriving DecidableEq, Repr

/-- Method `collectPortOpen`: queries `IsPortOpen` with `context.Background()`;
on error logs at error level and returns without sending; on success sends
one gauge sample with value `1.` when open, else `0.`. -/
def TransmissionCollector.collectPortOpen (t : TransmissionCollector)
    (d : Daemon) : SubResult :=
  match t.client.isPortOpen d contextBackground with
  | .error err =>
      { metrics := []
        logs := [{ level := .errorLevel, msg := "failed to get peer port state", err := err }] }
  | .ok isOpen =>
      let val : Rat := if isOpen then 1 else 0
      { metrics := [mustNewConstMetric t.portOpenDesc .gaugeValue val]
        logs := [] }

/-- Method `collectTurtleMode`: queries `GetSession` for the turtle-enabled field
with `context.Background()`; on error logs at error level and returns
without sending; on success sends one gauge sample in `{0., 1.}`. -/
def TransmissionCollector.collectTurtleMode (t : TransmissionCollector)
    (d : Daemon) : SubResult :=
  match t.client.getSession d contextBackground [SessionField.turtleEnabled] with
  | .error err =>
      { metrics := []
        logs := [{ level := .errorLevel, msg := "failed to query session info", err := err }] }
  | .ok sess =>
      let val : Rat := if sess.turtleEnabled then 1 else 0
      { metrics := [mustNewConstMetric t.turtleModeDesc .gaugeValue val]
        logs := [] }

/-- Method `collectSessionStats`: queries `GetSessionStats` with
`context.Background()`; on error logs at error level and returns without
sending; on success sends four gauge samples from the one response. -/
def TransmissionCollector.collectSessionStats (t : TransmissionCollector)
    (d : Daemon) : SubResult :=
  match t.client.getSessionStats d contextBackground with
  | .error err =>
      { metrics := []
        logs := [{ level := .errorLevel, msg := "failed to query session statistics", err := err }] }
  | .ok stats =>
      { metrics :=
          [mustNewConstMetric t.activeTorrents .gaugeValue (stats.activeTorrents : Rat),
           mustNewConstMetric t.pausedTorrents .gaugeValue (stats.pausedTorrents : Rat),
           mustNewConstMetric t.downloadedBytesTotal .gaugeValue (stats.allSessionsDownloaded : Rat),
           mustNewConstMetric t.uploadedBytesTotal .gaugeValue (stats.allSessionsUploaded : Rat)]
        logs := [] }

/-- Method `Collect`: the three sub-collections in the order of the `fns` slice.
Each runs in its own goroutine; `wg.Wait()` blocks the return of `Collect`
until all three have finished sending. -/
def TransmissionCollector.subResults (t : TransmissionCollector)
    (d : Daemon) : List SubResult :=
  [t.collectPortOpen d, t.collectTurtleMode d, t.collectSessionStats d]

/-- Relation stating that `zs` is an order-preserving merge of `xs` and `ys`: the possible receive
orders on one channel with two concurrent senders sending `xs` and `ys`. -/
inductive Interleave : List Metric → List Metric → List Metric → Prop where
  | nil : Interleave [] [] []
  | left {x : Metric} {xs ys zs : List Metric} :
      Interleave xs ys zs → Interleave (x :: xs) ys (x :: zs)
  | right {y : Metric} {xs ys zs : List Metric} :
      Interleave xs ys zs → Interleave xs (y :: ys) (y :: zs)

/-- Relation stating that `out` is a possible complete sequence of metrics received from the shared
channel of one `Collect` call: an interleaving of the send sequences of the
three concurrent sub-collections.  `Collect` returns only after the
`sync.WaitGroup` barrier, i.e. after every sub-collection has sent all of its
metrics, so `out` always contains all three send sequences in full. -/
def CollectEmits (t : TransmissionCollector) (d : Daemon)
    (out : List Metric) : Prop :=
  ∃ pt : List Metric,
    Interleave (t.collectPortOpen d).metrics (t.collectTurtleMode d).metrics pt ∧
    Interleave pt (t.collectSessionStats d).metrics out

/-- All log lines of one `Collect` call, as a multiset-like list (sub-logs
in `fns` order; the actual sink order is any interleaving). -/
def TransmissionCollector.collectLogs (t : TransmissionCollector)
    (d : Daemon) : List LogEntry :=
  (t.collectPortOpen d).logs ++ (t.collectTurtleMode d).logs ++
    (t.collectSessionStats d).logs

/-- State-passing semantics of a `Describe` call on the receiver `t`:
what it sends, and the receiver after the call.  The source method body
never assigns to a field of `t`. -/
def TransmissionCollector.describeSt (t : TransmissionCollector) :
    List Desc × TransmissionCollector :=
  (t.describe, t)

/-- State-passing semantics of a `Collect` call on the receiver `t` against
daemon state `d`: the three sub-results, and the receiver after the call.
Neither `Collect` nor any sub-collection assigns to a field of `t`. -/
def TransmissionCollector.collectSt (t : TransmissionCollector) (d : Daemon) :
    List SubResult × TransmissionCollector :=
  (t.subResults d, t)

/-- Semantics of `n` successive scrapes: the `i`-th scrape observes daemon state `ds[i]`,
and the collector value is threaded through every call. -/
def runScrapes (t : TransmissionCollector) :
    List Daemon → List (List SubResult) × TransmissionCollector
  | [] => ([], t)
  | d :: ds =>
      let first := t.collectSt d
      let rest := runScrapes first.2 ds
      (first.1 :: rest.1, rest.2)

/-! ## Concrete fixtures used by witnesses and counterexamples -/

/-- Concrete client handle (the default RPC URL of `exporter.go`). -/
def clientFixture : Client := { url := "http://127.0.0.1:9091" }

/-- Concrete logger handle. -/
def loggerFixture : Logger := { name := "promlog" }

/-- Concrete collector, as built at startup. -/
def collectorFixture : TransmissionCollector :=
  mkTransmissionCollector clientFixture loggerFixture

/-- Daemon on which every query succeeds, with the given values, no matter
the context. -/
def okDaemon (isOpen turtle : Bool) (st : SessionStats) : Daemon :=
  { portOpenResp := fun _ => .ok isOpen
    sessionResp := fun _ _ => .ok { turtleEnabled := turtle }
    sessionStatsResp := fun _ => .ok st }

/-- Concrete statistics record. -/
def statsFixture : SessionStats :=
  { activeTorrents := 3, pausedTorrents := 5,
    allSessionsDownloaded := 700, allSessionsUploaded := 900 }

/-- Daemon on which only the session-statistics query fails. -/
def statsFailDaemon : Daemon :=
  { portOpenResp := fun _ => .ok true
    sessionResp := fun _ _ => .ok { turtleEnabled := true }
    sessionStatsResp := fun _ => .error "connection refused" }

/-- Daemon on which only the turtle-mode session query fails. -/
def turtleFailDaemon : Daemon :=
  { portOpenResp := fun _ => .ok true
    sessionResp := fun _ _ => .error "connection refused"
    sessionStatsResp := fun _ => .ok statsFixture }

/-- Daemon on which only the port-reachability query fails. -/
def portFailDaemon : Daemon :=
  { portOpenResp := fun _ => .error "timeout"
    sessionResp := fun _ _ => .ok { turtleEnabled := true }
    sessionStatsResp := fun _ => .ok statsFixture }

/-- Daemon on which every query fails. -/
def allFailDaemon : Daemon :=
  { portOpenResp := fun _ => .error "boom"
    sessionResp := fun _ _ => .error "boom"
    sessionStatsResp := fun _ => .error "boom" }

/-- Daemon that answers the port query successfully exactly when the caller
attached a deadline to the context, and fails it otherwise; the other two
queries always succeed.  Its observed behaviour reveals which kind of
context the collector passes. -/
def deadlineProbeDaemon : Daemon :=
  { portOpenResp := fun ctx =>
      if ctx.hasDeadline then .ok true else .error "query context carries no deadline"
    sessionResp := fun _ _ => .ok { turtleEnabled := false }
    sessionStatsResp := fun _ => .ok statsFixture }

/-- Daemon that agrees with `okDaemon true true statsFixture` on every query
at `contextBackground` but fails every query issued under a context that
carries a deadline. -/
def backgroundOnlyDaemon : Daemon :=
  { portOpenResp := fun ctx =>
      if ctx.hasDeadline then .error "unexpected deadline" else .ok true
    sessionResp := fun ctx _ =>
      if ctx.hasDeadline then .error "unexpected deadline"
      else .ok { turtleEnabled := true }
    sessionStatsResp := fun ctx =>
      if ctx.hasDeadline then .error "unexpected deadline" else .ok statsFixture }

/-! ## General lemmas about interleavings of channel sends -/

/-- An interleaving of two send sequences is a permutation of their
concatenation. -/
theorem Interleave.perm_append {xs ys zs : List Metric}
    (h : Interleave xs ys zs) : List.Perm zs (xs ++ ys) := by
  induction h with
  | nil => exact List.Perm.refl _
  | left _ ih => exact ih.cons _
  | right _ ih => exact (ih.cons _).trans List.perm_middle.symm

/-- Plain concatenation is one possible interleaving. -/
theorem interleave_append (xs ys : List Metric) : Interleave xs ys (xs ++ ys) := by
  induction xs with
  | nil =>
      induction ys with
      | nil => exact .nil
      | cons y ys ih => exact .right ih
  | cons x xs ih => exact .left ih

/-- Every complete channel output of one `Collect` call is a permutation of
the three sub-collections' send sequences. -/
theorem collectEmits_perm {t : TransmissionCollector} {d : Daemon}
    {out : List Metric} (h : CollectEmits t d out) :
    List.Perm out
      (((t.collectPortOpen d).metrics ++ (t.collectTurtleMode d).metrics) ++
        (t.collectSessionStats d).metrics) := by
  obtain ⟨pt, h1, h2⟩ := h
  exact h2.perm_append.trans (h1.perm_append.append_right _)

/-- Some complete channel output always exists: the barrier never leaves a
scrape without a full output (the sequential concatenation is one). -/
theorem collectEmits_total (t : TransmissionCollector) (d : Daemon) :
    CollectEmits t d
      (((t.collectPortOpen d).metrics ++ (t.collectTurtleMode d).metrics) ++
        (t.collectSessionStats d).metrics) :=
  ⟨(t.collectPortOpen d).metrics ++ (t.collectTurtleMode d).metrics,
    interleave_append _ _, interleave_append _ _⟩

/-! ## Reduction lemmas for the three sub-collections -/

/-- Successful port query: one gauge sample, no log. -/
theorem collectPortOpen_of_ok {t : TransmissionCollector} {d : Daemon} {b : Bool}
    (hp : d.portOpenResp contextBackground = .ok b) :
    t.collectPortOpen d =
      { metrics := [Metric.const t.portOpenDesc .gaugeValue (if b then 1 else 0)]
        logs := [] } := by
  simp [TransmissionCollector.collectPortOpen, Client.isPortOpen, hp, mustNewConstMetric]

/-- Failed port query: no metric, one error log. -/
theorem collectPortOpen_of_error {t : TransmissionCollector} {d : Daemon} {e : String}
    (hp : d.portOpenResp contextBackground = .error e) :
    t.collectPortOpen d =
      { metrics := []
        logs := [{ level := .errorLevel, msg := "failed to get peer port state", err := e }] } := by
  simp [TransmissionCollector.collectPortOpen, Client.isPortOpen, hp]

/-- Successful turtle-mode query: one gauge sample, no log. -/
theorem collectTurtleMode_of_ok {t : TransmissionCollector} {d : Daemon} {turt : Bool}
    (ht : d.sessionResp contextBackground [SessionField.turtleEnabled] =
      .ok { turtleEnabled := turt }) :
    t.collectTurtleMode d =
      { metrics := [Metric.const t.turtleModeDesc .gaugeValue (if turt then 1 else 0)]
        logs := [] } := by
  simp [TransmissionCollector.collectTurtleMode, Client.getSession, ht, mustNewConstMetric]

/-- Failed turtle-mode query: no metric, one error log. -/
theorem collectTurtleMode_of_error {t : TransmissionCollector} {d : Daemon} {e : String}
    (ht : d.sessionResp contextBackground [SessionField.turtleEnabled] = .error e) :
    t.collectTurtleMode d =
      { metrics := []
        logs := [{ level := .errorLevel, msg := "failed to query session info", err := e }] } := by
  simp [TransmissionCollector.collectTurtleMode, Client.getSession, ht]

/-- Successful statistics query: four gauge samples, no log. -/
theorem collectSessionStats_of_ok {t : TransmissionCollector} {d : Daemon}
    {st : SessionStats}
    (hs : d.sessionStatsResp contextBackground = .ok st) :
    t.collectSessionStats d =
      { metrics :=
          [Metric.const t.activeTorrents .gaugeValue (st.activeTorrents : Rat),
           Metric.const t.pausedTorrents .gaugeValue (st.pausedTorrents : Rat),
           Metric.const t.downloadedBytesTotal .gaugeValue (st.allSessionsDownloaded : Rat),
           Metric.const t.uploadedBytesTotal .gaugeValue (st.allSessionsUploaded : Rat)]
        logs := [] } := by
  simp [TransmissionCollector.collectSessionStats, Client.getSessionStats, hs,
    mustNewConstMetric]

/-- Failed statistics query: no metric, one error log. -/
theorem collectSessionStats_of_error {t : TransmissionCollector} {d : Daemon} {e : String}
    (hs : d.sessionStatsResp contextBackground = .error e) :
    t.collectSessionStats d =
      { metrics := []
        logs := [{ level := .errorLevel, msg := "failed to query session statistics", err := e }] } := by
  simp [TransmissionCollector.collectSessionStats, Client.getSessionStats, hs]

/-- When every query succeeds, every complete channel output of `Collect` is
a permutation of the six expected gauge samples. -/
theorem collect_success_perm {t : TransmissionCollector} {d : Daemon}
    {b turt : Bool} {st : SessionStats}
    (hp : d.portOpenResp contextBackground = .ok b)
    (ht : d.sessionResp contextBackground [SessionField.turtleEnabled] =
      .ok { turtleEnabled := turt })
    (hs : d.sessionStatsResp contextBackground = .ok st)
    {out : List Metric} (h : CollectEmits t d out) :
    List.Perm out
      [Metric.const t.portOpenDesc .gaugeValue (if b then 1 else 0),
       Metric.const t.turtleModeDesc .gaugeValue (if turt then 1 else 0),
       Metric.const t.activeTorrents .gaugeValue (st.activeTorrents : Rat),
       Metric.const t.pausedTorrents .gaugeValue (st.pausedTorrents : Rat),
       Metric.const t.downloadedBytesTotal .gaugeValue (st.allSessionsDownloaded : Rat),
       Metric.const t.uploadedBytesTotal .gaugeValue (st.allSessionsUploaded : Rat)] := by
  have hper := collectEmits_perm h
  rw [collectPortOpen_of_ok hp, collectTurtleMode_of_ok ht,
    collectSessionStats_of_ok hs] at hper
  simpa using hper

/-! ## Claims -/

/-- C1: the claim says `Describe` returns the complete six-descriptor
catalog.  The source sends only `portOpenDesc` and `turtleModeDesc`: the
four session-statistics descriptors are never described, although `Collect`
emits metrics for them — contradicting the prometheus `Collector` contract
the method's own comment claims to implement.  This theorem evaluates
`Describe` on the collector built at startup. -/
theorem describe_omits_four_catalog_descriptors :
    collectorFixture.describe =
      [collectorFixture.portOpenDesc, collectorFixture.turtleModeDesc] ∧
    collectorFixture.describe.length = 2 ∧
    collectorFixture.catalog.length = 6 ∧
    collectorFixture.activeTorrents ∉ collectorFixture.describe ∧
    collectorFixture.pausedTorrents ∉ collectorFixture.describe ∧
    collectorFixture.downloadedBytesTotal ∉ collectorFixture.describe ∧
    collectorFixture.uploadedBytesTotal ∉ collectorFixture.describe := by
  refine ⟨rfl, rfl, rfl, ?_, ?_, ?_, ?_⟩ <;> decide

/-- C2 counterexample: on a session-statistics failure the code emits no
invalid-metric marker at all — the stats sub-collection sends nothing, and
the complete channel output contains zero invalid markers. -/
theorem sessionStats_failure_sends_no_marker :
    (collectorFixture.collectSessionStats statsFailDaemon).metrics = [] ∧
    (collectorFixture.collectSessionStats statsFailDaemon).logs =
      [{ level := .errorLevel, msg := "failed to query session statistics",
         err := "connection refused" }] ∧
    (((collectorFixture.collectPortOpen statsFailDaemon).metrics ++
        (collectorFixture.collectTurtleMode statsFailDaemon).metrics) ++
        (collectorFixture.collectSessionStats statsFailDaemon).metrics).countP
      Metric.isInvalid = 0 := by
  refine ⟨rfl, rfl, rfl⟩

/-- C2 amended: when the session-statistics query fails, the stats
sub-collection emits nothing — neither samples nor invalid markers for any
of its four descriptors (atomically absent as a group) — and logs one
error-level line; the complete scrape output is exactly the port and
turtle-mode samples, with no invalid marker anywhere. -/
theorem sessionStats_failure_group_emits_nothing
    (c : Client) (l : Logger) (d : Daemon) (e : String) (b turt : Bool)
    (hs : d.sessionStatsResp contextBackground = .error e)
    (hp : d.portOpenResp contextBackground = .ok b)
    (ht : d.sessionResp contextBackground [SessionField.turtleEnabled] =
      .ok { turtleEnabled := turt }) :
    ((mkTransmissionCollector c l).collectSessionStats d).metrics = [] ∧
    ((mkTransmissionCollector c l).collectSessionStats d).logs =
      [{ level := .errorLevel, msg := "failed to query session statistics", err := e }] ∧
    ∀ out, CollectEmits (mkTransmissionCollector c l) d out →
      List.Perm out
        [Metric.const (mkTransmissionCollector c l).portOpenDesc .gaugeValue
          (if b then 1 else 0),
         Metric.const (mkTransmissionCollector c l).turtleModeDesc .gaugeValue
          (if turt then 1 else 0)] ∧
      out.countP Metric.isInvalid = 0 := by
  refine ⟨(collectSessionStats_of_error hs ▸ rfl : _), ?_, ?_⟩
  · rw [collectSessionStats_of_error hs]
  · intro out h
    have hper := collectEmits_perm h
    rw [collectPortOpen_of_ok hp, collectTurtleMode_of_ok ht,
      collectSessionStats_of_error hs] at hper
    simp only [List.append_nil] at hper
    refine ⟨hper, ?_⟩
    rw [hper.countP_eq]
    rfl

/-- C2 witness. -/
theorem sessionStats_failure_group_emits_nothing_witness :
    ((mkTransmissionCollector clientFixture loggerFixture).collectSessionStats
      statsFailDaemon).metrics = [] :=
  (sessionStats_failure_group_emits_nothing clientFixture loggerFixture
    statsFailDaemon "connection refused" true true rfl rfl rfl).1

/-- C3 counterexample: on a turtle-mode failure the code emits no
invalid-metric marker — the turtle sub-collection sends nothing, and the
complete channel output contains zero invalid markers. -/
theorem turtleMode_failure_sends_no_marker :
    (collectorFixture.collectTurtleMode turtleFailDaemon).metrics = [] ∧
    (collectorFixture.collectTurtleMode turtleFailDaemon).logs =
      [{ level := .errorLevel, msg := "failed to query session info",
         err := "connection refused" }] ∧
    (((collectorFixture.collectPortOpen turtleFailDaemon).metrics ++
        (collectorFixture.collectTurtleMode turtleFailDaemon).metrics) ++
        (collectorFixture.collectSessionStats turtleFailDaemon).metrics).countP
      Metric.isInvalid = 0 := by
  refine ⟨rfl, rfl, rfl⟩

/-- C3 amended: when the turtle-mode query fails, that sub-collection emits
nothing — neither a sample nor an invalid marker — and logs one error-level
line; the complete scrape output is exactly the port sample and the four
statistics samples, with no invalid marker anywhere. -/
theorem turtleMode_failure_emits_nothing
    (c : Client) (l : Logger) (d : Daemon) (e : String) (b : Bool)
    (st : SessionStats)
    (ht : d.sessionResp contextBackground [SessionField.turtleEnabled] = .error e)
    (hp : d.portOpenResp contextBackground = .ok b)
    (hs : d.sessionStatsResp contextBackground = .ok st) :
    ((mkTransmissionCollector c l).collectTurtleMode d).metrics = [] ∧
    ((mkTransmissionCollector c l).collectTurtleMode d).logs =
      [{ level := .errorLevel, msg := "failed to query session info", err := e }] ∧
    ∀ out, CollectEmits (mkTransmissionCollector c l) d out →
      List.Perm out
        [Metric.const (mkTransmissionCollector c l).portOpenDesc .gaugeValue
          (if b then 1 else 0),
         Metric.const (mkTransmissionCollector c l).activeTorrents .gaugeValue
          (st.activeTorrents : Rat),
         Metric.const (mkTransmissionCollector c l).pausedTorrents .gaugeValue
          (st.pausedTorrents : Rat),
         Metric.const (mkTransmissionCollector c l).downloadedBytesTotal .gaugeValue
          (st.allSessionsDownloaded : Rat),
         Metric.const (mkTransmissionCollector c l).uploadedBytesTotal .gaugeValue
          (st.allSessionsUploaded : Rat)] ∧
      out.countP Metric.isInvalid = 0 := by
  refine ⟨?_, ?_, ?_⟩
  · rw [collectTurtleMode_of_error ht]
  · rw [collectTurtleMode_of_error ht]
  · intro out h
    have hper := collectEmits_perm h
    rw [collectPortOpen_of_ok hp, collectTurtleMode_of_error ht,
      collectSessionStats_of_ok hs] at hper
    simp only [List.append_nil] at hper
    refine ⟨hper, ?_⟩
    rw [hper.countP_eq]
    rfl

/-- C3 witness. -/
theorem turtleMode_failure_emits_nothing_witness :
    ((mkTransmissionCollector clientFixture loggerFixture).collectTurtleMode
      turtleFailDaemon).metrics = [] :=
  (turtleMode_failure_emits_nothing clientFixture loggerFixture
    turtleFailDaemon "connection refused" true statsFixture rfl rfl rfl).1

/-- C4 counterexample: on a port-query failure the code does not publish a
0.0 sample and does not log a warning — it emits nothing for the port
descriptor and logs at error level. -/
theorem port_failure_sends_no_sample :
    (collectorFixture.collectPortOpen portFailDaemon).metrics = [] ∧
    (collectorFixture.collectPortOpen portFailDaemon).logs =
      [{ level := .errorLevel, msg := "failed to get peer port state",
         err := "timeout" }] := by
  refine ⟨rfl, rfl⟩

/-- C4 amended: when the port-reachability query fails, that sub-collection
emits nothing — no 0.0 sample and no invalid marker — and logs one
error-level (not warning) line; the complete scrape output is exactly the
turtle-mode sample and the four statistics samples. -/
theorem port_failure_emits_nothing
    (c : Client) (l : Logger) (d : Daemon) (e : String) (turt : Bool)
    (st : SessionStats)
    (hp : d.portOpenResp contextBackground = .error e)
    (ht : d.sessionResp contextBackground [SessionField.turtleEnabled] =
      .ok { turtleEnabled := turt })
    (hs : d.sessionStatsResp contextBackground = .ok st) :
    ((mkTransmissionCollector c l).collectPortOpen d).metrics = [] ∧
    ((mkTransmissionCollector c l).collectPortOpen d).logs =
      [{ level := .errorLevel, msg := "failed to get peer port state", err := e }] ∧
    ∀ out, CollectEmits (mkTransmissionCollector c l) d out →
      List.Perm out
        [Metric.const (mkTransmissionCollector c l).turtleModeDesc .gaugeValue
          (if turt then 1 else 0),
         Metric.const (mkTransmissionCollector c l).activeTorrents .gaugeValue
          (st.activeTorrents : Rat),
         Metric.const (mkTransmissionCollector c l).pausedTorrents .gaugeValue
          (st.pausedTorrents : Rat),
         Metric.const (mkTransmissionCollector c l).downloadedBytesTotal .gaugeValue
          (st.allSessionsDownloaded : Rat),
         Metric.const (mkTransmissionCollector c l).uploadedBytesTotal .gaugeValue
          (st.allSessionsUploaded : Rat)] ∧
      out.countP Metric.isInvalid = 0 := by
  refine ⟨?_, ?_, ?_⟩
  · rw [collectPortOpen_of_error hp]
  · rw [collectPortOpen_of_error hp]
  · intro out h
    have hper := collectEmits_perm h
    rw [collectPortOpen_of_error hp, collectTurtleMode_of_ok ht,
      collectSessionStats_of_ok hs] at hper
    simp only [List.nil_append] at hper
    refine ⟨hper, ?_⟩
    rw [hper.countP_eq]
    rfl

/-- C4 witness. -/
theorem port_failure_emits_nothing_witness :
    ((mkTransmissionCollector clientFixture loggerFixture).collectPortOpen
      portFailDaemon).metrics = [] :=
  (port_failure_emits_nothing clientFixture loggerFixture
    portFailDaemon "timeout" true statsFixture rfl rfl rfl).1

/-- Descriptors of a fully successful scrape: a permutation of the catalog. -/
theorem collect_success_desc_perm {c : Client} {l : Logger} {d : Daemon}
    {b turt : Bool} {st : SessionStats}
    (hp : d.portOpenResp contextBackground = .ok b)
    (ht : d.sessionResp contextBackground [SessionField.turtleEnabled] =
      .ok { turtleEnabled := turt })
    (hs : d.sessionStatsResp contextBackground = .ok st)
    {out : List Metric} (h : CollectEmits (mkTransmissionCollector c l) d out) :
    List.Perm (out.map Metric.desc) (mkTransmissionCollector c l).catalog := by
  have hper := (collect_success_perm hp ht hs h).map Metric.desc
  simpa [TransmissionCollector.catalog, Metric.desc] using hper

/-- Closed form of the port-open descriptor. -/
theorem mk_portOpenDesc (c : Client) (l : Logger) :
    (mkTransmissionCollector c l).portOpenDesc =
      { fqName := "transmission_is_port_open"
        help := "Indicates whether or not the peer port is accessible from the Internet."
        variableLabels := [], constLabels := [] } := rfl

/-- Closed form of the turtle-mode descriptor. -/
theorem mk_turtleModeDesc (c : Client) (l : Logger) :
    (mkTransmissionCollector c l).turtleModeDesc =
      { fqName := "transmission_is_turtle_mode_active"
        help := "Indicates whether or not turtle mode is active."
        variableLabels := [], constLabels := [] } := rfl

/-- Closed form of the active-torrents descriptor. -/
theorem mk_activeTorrents (c : Client) (l : Logger) :
    (mkTransmissionCollector c l).activeTorrents =
      { fqName := "transmission_active_torrents"
        help := "Number of active torrents."
        variableLabels := [], constLabels := [] } := rfl

/-- Closed form of the paused-torrents descriptor. -/
theorem mk_pausedTorrents (c : Client) (l : Logger) :
    (mkTransmissionCollector c l).pausedTorrents =
      { fqName := "transmission_paused_torrents"
        help := "Number of paused torrents."
        variableLabels := [], constLabels := [] } := rfl

/-- Closed form of the downloaded-bytes descriptor. -/
theorem mk_downloadedBytesTotal (c : Client) (l : Logger) :
    (mkTransmissionCollector c l).downloadedBytesTotal =
      { fqName := "transmission_downloaded_bytes_total"
        help := "Total amount of downloaded data."
        variableLabels := [], constLabels := [] } := rfl

/-- Closed form of the uploaded-bytes descriptor. -/
theorem mk_uploadedBytesTotal (c : Client) (l : Logger) :
    (mkTransmissionCollector c l).uploadedBytesTotal =
      { fqName := "transmission_uploaded_bytes_total"
        help := "Total amount of uploaded data."
        variableLabels := [], constLabels := [] } := rfl

/-- Descriptor catalog entries are pairwise distinct. -/
theorem catalog_nodup (c : Client) (l : Logger) :
    (mkTransmissionCollector c l).catalog.Nodup := by
  simp only [TransmissionCollector.catalog, mk_portOpenDesc, mk_turtleModeDesc,
    mk_activeTorrents, mk_pausedTorrents, mk_downloadedBytesTotal,
    mk_uploadedBytesTotal]
  decide

/-- C5: when all three upstream queries succeed, every complete channel
output of `Collect` is a permutation of six gauge samples — exactly one per
catalog descriptor — every emitted metric is a const gauge sample, and the
two boolean-derived gauges carry value `if flag then 1 else 0`, hence take
values only in `{0, 1}` with `1` exactly when the queried flag is true. -/
theorem collect_all_success_one_sample_per_descriptor
    (c : Client) (l : Logger) (d : Daemon) (b turt : Bool) (st : SessionStats)
    (hp : d.portOpenResp contextBackground = .ok b)
    (ht : d.sessionResp contextBackground [SessionField.turtleEnabled] =
      .ok { turtleEnabled := turt })
    (hs : d.sessionStatsResp contextBackground = .ok st) :
    ∀ out, CollectEmits (mkTransmissionCollector c l) d out →
      List.Perm out
        [Metric.const (mkTransmissionCollector c l).portOpenDesc .gaugeValue
          (if b then 1 else 0),
         Metric.const (mkTransmissionCollector c l).turtleModeDesc .gaugeValue
          (if turt then 1 else 0),
         Metric.const (mkTransmissionCollector c l).activeTorrents .gaugeValue
          (st.activeTorrents : Rat),
         Metric.const (mkTransmissionCollector c l).pausedTorrents .gaugeValue
          (st.pausedTorrents : Rat),
         Metric.const (mkTransmissionCollector c l).downloadedBytesTotal .gaugeValue
          (st.allSessionsDownloaded : Rat),
         Metric.const (mkTransmissionCollector c l).uploadedBytesTotal .gaugeValue
          (st.allSessionsUploaded : Rat)] ∧
      out.length = 6 ∧
      (∀ dsc ∈ (mkTransmissionCollector c l).catalog,
        (out.map Metric.desc).count dsc = 1) ∧
      (∀ m ∈ out, ∃ dsc v, m = Metric.const dsc MetricKind.gaugeValue v) ∧
      (∀ m ∈ out,
        (m.desc = (mkTransmissionCollector c l).portOpenDesc ∨
         m.desc = (mkTransmissionCollector c l).turtleModeDesc) →
        ∃ v, m = Metric.const m.desc MetricKind.gaugeValue v ∧ (v = 0 ∨ v = 1)) := by
  intro out h
  have hper := collect_success_perm hp ht hs h
  refine ⟨hper, hper.length_eq.trans rfl, ?_, ?_, ?_⟩
  · intro dsc hdsc
    rw [List.Perm.count_eq (collect_success_desc_perm hp ht hs h) dsc]
    exact List.count_eq_one_of_mem (catalog_nodup c l) hdsc
  · intro m hm
    rw [hper.mem_iff] at hm
    simp only [List.mem_cons, List.not_mem_nil, or_false] at hm
    rcases hm with h1 | h1 | h1 | h1 | h1 | h1 <;> exact ⟨_, _, h1⟩
  · intro m hm hdesc
    rw [hper.mem_iff] at hm
    simp only [List.mem_cons, List.not_mem_nil, or_false] at hm
    rcases hm with h1 | h1 | h1 | h1 | h1 | h1 <;> subst h1
    · exact ⟨if b then 1 else 0, rfl, by cases b <;> simp⟩
    · exact ⟨if turt then 1 else 0, rfl, by cases turt <;> simp⟩
    all_goals
      exfalso
      simp only [Metric.desc, mk_portOpenDesc, mk_turtleModeDesc, mk_activeTorrents,
        mk_pausedTorrents, mk_downloadedBytesTotal, mk_uploadedBytesTotal] at hdesc
      rcases hdesc with h2 | h2 <;> exact absurd h2 (by decide)

/-- C5 witness. -/
theorem collect_all_success_one_sample_per_descriptor_witness :
    List.Perm
      ((((mkTransmissionCollector clientFixture loggerFixture).collectPortOpen
          (okDaemon true false statsFixture)).metrics ++
        ((mkTransmissionCollector clientFixture loggerFixture).collectTurtleMode
          (okDaemon true false statsFixture)).metrics) ++
        ((mkTransmissionCollector clientFixture loggerFixture).collectSessionStats
          (okDaemon true false statsFixture)).metrics)
      [Metric.const (mkTransmissionCollector clientFixture loggerFixture).portOpenDesc
        .gaugeValue 1,
       Metric.const (mkTransmissionCollector clientFixture loggerFixture).turtleModeDesc
        .gaugeValue 0,
       Metric.const (mkTransmissionCollector clientFixture loggerFixture).activeTorrents
        .gaugeValue 3,
       Metric.const (mkTransmissionCollector clientFixture loggerFixture).pausedTorrents
        .gaugeValue 5,
       Metric.const (mkTransmissionCollector clientFixture loggerFixture).downloadedBytesTotal
        .gaugeValue 700,
       Metric.const (mkTransmissionCollector clientFixture loggerFixture).uploadedBytesTotal
        .gaugeValue 900] := by
  have h := (collect_all_success_one_sample_per_descriptor clientFixture loggerFixture
    (okDaemon true false statsFixture) true false statsFixture rfl rfl rfl
    _ (collectEmits_total _ _)).1
  simpa [statsFixture] using h

/-- C6 counterexample: probing the context the port sub-collection passes.
Against a daemon that succeeds exactly when the caller attached a deadline,
the port sub-collection takes the failure branch — the query was issued with
`context.Background()`, which carries no explicit timeout.  Under the claim
(an explicit short deadline) the output would be the single 1.0 sample. -/
theorem port_query_ctx_carries_no_deadline :
    (collectorFixture.collectPortOpen deadlineProbeDaemon).metrics = [] ∧
    (collectorFixture.collectPortOpen deadlineProbeDaemon).logs =
      [{ level := .errorLevel, msg := "failed to get peer port state",
         err := "query context carries no deadline" }] := by
  refine ⟨rfl, rfl⟩

/-- C6 amended: all three sub-collections, the port-reachability one
included, issue their query with `context.Background()`: the whole scrape
output is determined by the daemon's responses at the deadline-free
background context, so no query is issued under a context carrying an
explicit timeout. -/
theorem collect_depends_only_on_background_responses
    (c : Client) (l : Logger) (d₁ d₂ : Daemon)
    (hp : d₁.portOpenResp contextBackground = d₂.portOpenResp contextBackground)
    (ht : d₁.sessionResp contextBackground [SessionField.turtleEnabled] =
      d₂.sessionResp contextBackground [SessionField.turtleEnabled])
    (hs : d₁.sessionStatsResp contextBackground = d₂.sessionStatsResp contextBackground) :
    (mkTransmissionCollector c l).subResults d₁ =
      (mkTransmissionCollector c l).subResults d₂ := by
  simp only [TransmissionCollector.subResults, TransmissionCollector.collectPortOpen,
    TransmissionCollector.collectTurtleMode, TransmissionCollector.collectSessionStats,
    Client.isPortOpen, Client.getSession, Client.getSessionStats, hp, ht, hs]

/-- C6 witness. -/
theorem collect_depends_only_on_background_responses_witness :
    (mkTransmissionCollector clientFixture loggerFixture).subResults
      (okDaemon true true statsFixture) =
    (mkTransmissionCollector clientFixture loggerFixture).subResults
      backgroundOnlyDaemon :=
  collect_depends_only_on_background_responses clientFixture loggerFixture
    (okDaemon true true statsFixture) backgroundOnlyDaemon rfl rfl rfl

/-- C7: a complete channel output always exists (the completion barrier in
the functional model: every scrape terminates with a full output), and every
complete output of a scrape whose three queries succeed covers each catalog
descriptor exactly once, whatever the interleaving produced by concurrent
sub-collections — no completed scrape is partial. -/
theorem collect_barrier_output_covers_catalog
    (c : Client) (l : Logger) (d : Daemon) (b turt : Bool) (st : SessionStats)
    (hp : d.portOpenResp contextBackground = .ok b)
    (ht : d.sessionResp contextBackground [SessionField.turtleEnabled] =
      .ok { turtleEnabled := turt })
    (hs : d.sessionStatsResp contextBackground = .ok st) :
    (∃ out, CollectEmits (mkTransmissionCollector c l) d out) ∧
    ∀ out, CollectEmits (mkTransmissionCollector c l) d out →
      ∀ dsc ∈ (mkTransmissionCollector c l).catalog,
        (out.map Metric.desc).count dsc = 1 := by
  refine ⟨⟨_, collectEmits_total _ _⟩, ?_⟩
  intro out h dsc hdsc
  rw [List.Perm.count_eq (collect_success_desc_perm hp ht hs h) dsc]
  exact List.count_eq_one_of_mem (catalog_nodup c l) hdsc

/-- C7 witness. -/
theorem collect_barrier_output_covers_catalog_witness :
    ∃ out, CollectEmits (mkTransmissionCollector clientFixture loggerFixture)
      (okDaemon true true statsFixture) out :=
  (collect_barrier_output_covers_catalog clientFixture loggerFixture
    (okDaemon true true statsFixture) true true statsFixture rfl rfl rfl).1

/-- C8: the collector is stateless across scrapes.  `Describe` and `Collect`
return the receiver unchanged (the source never assigns to a field), and
over any sequence of scrapes against changing daemon states the `i`-th
scrape's output is a function of the immutable collector and the `i`-th
daemon state alone — no value from an earlier scrape is reused or mixed
in — while the collector after the whole sequence is the original one. -/
theorem collector_stateless_across_scrapes
    (t : TransmissionCollector) (ds : List Daemon) :
    t.describeSt.2 = t ∧
    (∀ d, (t.collectSt d).2 = t) ∧
    runScrapes t ds = (ds.map t.subResults, t) := by
  refine ⟨rfl, fun _ => rfl, ?_⟩
  induction ds with
  | nil => rfl
  | cons d ds ih =>
      simp only [runScrapes, TransmissionCollector.collectSt, List.map_cons, ih]

/-- C9: on a fully successful scrape the descriptors announced by `Describe`
are a strict subset of the descriptors of the emitted samples: both
described descriptors appear among the samples, while the four
session-statistics descriptors appear among the samples but are never
returned by `Describe`. -/
theorem describe_strict_subset_of_collected
    (c : Client) (l : Logger) (d : Daemon) (b turt : Bool) (st : SessionStats)
    (hp : d.portOpenResp contextBackground = .ok b)
    (ht : d.sessionResp contextBackground [SessionField.turtleEnabled] =
      .ok { turtleEnabled := turt })
    (hs : d.sessionStatsResp contextBackground = .ok st) :
    ∀ out, CollectEmits (mkTransmissionCollector c l) d out →
      (∀ dsc ∈ (mkTransmissionCollector c l).describe, dsc ∈ out.map Metric.desc) ∧
      ((mkTransmissionCollector c l).activeTorrents ∈ out.map Metric.desc ∧
        (mkTransmissionCollector c l).activeTorrents ∉
          (mkTransmissionCollector c l).describe) ∧
      ((mkTransmissionCollector c l).pausedTorrents ∈ out.map Metric.desc ∧
        (mkTransmissionCollector c l).pausedTorrents ∉
          (mkTransmissionCollector c l).describe) ∧
      ((mkTransmissionCollector c l).downloadedBytesTotal ∈ out.map Metric.desc ∧
        (mkTransmissionCollector c l).downloadedBytesTotal ∉
          (mkTransmissionCollector c l).describe) ∧
      ((mkTransmissionCollector c l).uploadedBytesTotal ∈ out.map Metric.desc ∧
        (mkTransmissionCollector c l).uploadedBytesTotal ∉
          (mkTransmissionCollector c l).describe) := by
  intro out h
  have hmem : ∀ dsc ∈ (mkTransmissionCollector c l).catalog, dsc ∈ out.map Metric.desc := by
    intro dsc hdsc
    exact (collect_success_desc_perm hp ht hs h).mem_iff.mpr hdsc
  have hnotin : ∀ dsc : Desc,
      dsc ≠ (mkTransmissionCollector c l).portOpenDesc →
      dsc ≠ (mkTransmissionCollector c l).turtleModeDesc →
      dsc ∉ (mkTransmissionCollector c l).describe := by
    intro dsc h1 h2 hin
    simp only [TransmissionCollector.describe, List.mem_cons, List.not_mem_nil,
      or_false] at hin
    rcases hin with h3 | h3 <;> [exact h1 h3; exact h2 h3]
  refine ⟨?_, ⟨?_, ?_⟩, ⟨?_, ?_⟩, ⟨?_, ?_⟩, ⟨?_, ?_⟩⟩
  · intro dsc hdsc
    refine hmem dsc ?_
    simp only [TransmissionCollector.describe, List.mem_cons, List.not_mem_nil,
      or_false] at hdsc
    rcases hdsc with h3 | h3 <;> subst h3 <;>
      simp [TransmissionCollector.catalog]
  · exact hmem _ (by simp [TransmissionCollector.catalog])
  · refine hnotin _ ?_ ?_ <;>
      simp only [mk_activeTorrents, mk_portOpenDesc, mk_turtleModeDesc] <;> decide
  · exact hmem _ (by simp [TransmissionCollector.catalog])
  · refine hnotin _ ?_ ?_ <;>
      simp only [mk_pausedTorrents, mk_portOpenDesc, mk_turtleModeDesc] <;> decide
  · exact hmem _ (by simp [TransmissionCollector.catalog])
  · refine hnotin _ ?_ ?_ <;>
      simp only [mk_downloadedBytesTotal, mk_portOpenDesc, mk_turtleModeDesc] <;> decide
  · exact hmem _ (by simp [TransmissionCollector.catalog])
  · refine hnotin _ ?_ ?_ <;>
      simp only [mk_uploadedBytesTotal, mk_portOpenDesc, mk_turtleModeDesc] <;> decide

/-- C9 witness. -/
theorem describe_strict_subset_of_collected_witness :
    (mkTransmissionCollector clientFixture loggerFixture).activeTorrents ∉
      (mkTransmissionCollector clientFixture loggerFixture).describe :=
  ((describe_strict_subset_of_collected clientFixture loggerFixture
    (okDaemon true true statsFixture) true true statsFixture rfl rfl rfl
    _ (collectEmits_total _ _)).2.1).2

/-- C10: in any scrape, each sub-collection whose own upstream query fails —
whatever the other two queries do — sends nothing on the channel, neither a
sample nor an invalid marker, and produces exactly one error-level log line;
and each sub-collection's output is a function of its own query's response
alone, so across two daemon states that agree on one query (one state may
fail the other queries, the other succeed them) that sub-collection's output
is identical: a failure never affects the other sub-collections. -/
theorem failed_query_emits_nothing_logs_error
    (c : Client) (l : Logger) (d d' : Daemon) (e₁ e₂ e₃ : String) :
    (d.portOpenResp contextBackground = .error e₁ →
      (mkTransmissionCollector c l).collectPortOpen d =
        { metrics := []
          logs := [{ level := .errorLevel, msg := "failed to get peer port state", err := e₁ }] }) ∧
    (d.sessionResp contextBackground [SessionField.turtleEnabled] = .error e₂ →
      (mkTransmissionCollector c l).collectTurtleMode d =
        { metrics := []
          logs := [{ level := .errorLevel, msg := "failed to query session info", err := e₂ }] }) ∧
    (d.sessionStatsResp contextBackground = .error e₃ →
      (mkTransmissionCollector c l).collectSessionStats d =
        { metrics := []
          logs := [{ level := .errorLevel, msg := "failed to query session statistics", err := e₃ }] }) ∧
    (d'.portOpenResp contextBackground = d.portOpenResp contextBackground →
      (mkTransmissionCollector c l).collectPortOpen d' =
        (mkTransmissionCollector c l).collectPortOpen d) ∧
    (d'.sessionResp contextBackground [SessionField.turtleEnabled] =
        d.sessionResp contextBackground [SessionField.turtleEnabled] →
      (mkTransmissionCollector c l).collectTurtleMode d' =
        (mkTransmissionCollector c l).collectTurtleMode d) ∧
    (d'.sessionStatsResp contextBackground = d.sessionStatsResp contextBackground →
      (mkTransmissionCollector c l).collectSessionStats d' =
        (mkTransmissionCollector c l).collectSessionStats d) := by
  refine ⟨fun hp => collectPortOpen_of_error hp,
    fun ht => collectTurtleMode_of_error ht,
    fun hs => collectSessionStats_of_error hs, ?_, ?_, ?_⟩
  · intro hp'
    simp only [TransmissionCollector.collectPortOpen, Client.isPortOpen, hp']
  · intro ht'
    simp only [TransmissionCollector.collectTurtleMode, Client.getSession, ht']
  · intro hs'
    simp only [TransmissionCollector.collectSessionStats, Client.getSessionStats, hs']

/-- C10 witness: a mixed-failure scrape — only the port query fails, turtle
and statistics succeed.  The failing sub-collection emits nothing and logs
one error line, while the turtle and statistics sub-collections produce
exactly the output they produce against a daemon on which every query
succeeds: the port failure does not affect them. -/
theorem failed_query_emits_nothing_logs_error_witness :
    (mkTransmissionCollector clientFixture loggerFixture).collectPortOpen portFailDaemon =
      { metrics := []
        logs := [{ level := .errorLevel, msg := "failed to get peer port state", err := "timeout" }] } ∧
    (mkTransmissionCollector clientFixture loggerFixture).collectTurtleMode
        (okDaemon true true statsFixture) =
      (mkTransmissionCollector clientFixture loggerFixture).collectTurtleMode portFailDaemon ∧
    (mkTransmissionCollector clientFixture loggerFixture).collectSessionStats
        (okDaemon true true statsFixture) =
      (mkTransmissionCollector clientFixture loggerFixture).collectSessionStats portFailDaemon := by
  have h := failed_query_emits_nothing_logs_error clientFixture loggerFixture
    portFailDaemon (okDaemon true true statsFixture) "timeout" "e" "e"
  exact ⟨h.1 rfl, h.2.2.2.2.1 rfl, h.2.2.2.2.2 rfl⟩

end TransmissionExporter
